import Mathlib

set_option maxRecDepth 20000

/-!
Verification development for the code-execution MCP server
(`src/code_execution_mcp/server.py`).

The development shallowly embeds the parts of the server that the
specification talks about:

* the sandboxed execution supervisor `execute_code` together with the
  restricted namespace built by `create_safe_builtins` / `create_safe_globals`
  (a small straight-line fragment of Python is embedded: assignments,
  expression statements and imports over literals, names, attribute access,
  calls and binary operators — exactly the constructs the claims exercise);
* the workspace gateway `_safe_read_file` / `_safe_write_file` /
  `_safe_list_files` / `_safe_delete_file` over an abstract file system;
* the PII tokenization engine `tokenize_pii` / `detokenize_pii`, including a
  faithful backtracking matcher for the six `PII_PATTERNS` regular
  expressions (Python `re` semantics: leftmost match, greedy quantifiers,
  word boundaries, IGNORECASE), `str.replace`, and a full MD5
  implementation for the token digests;
* the skill store `save_skill` / `save_skill_internal`, including Python's
  `re.match(r'^[a-zA-Z_][a-zA-Z0-9_]*$', name)` semantics where `$` also
  matches just before a single trailing newline;
* the dangerous-construct scanner, which is referenced by the repository's
  tests but absent from the shipped sources, modelled from the spec.
-/

/- ===================================================================
   Part 1: the sandboxed mini-Python and `execute_code`
   =================================================================== -/

/-- Python values, as far as the sandboxed mini-language needs them.
`exec` runs arbitrary Python; the embedding covers the value shapes the
claims exercise (numbers, strings, lists, types, builtin functions,
pre-bound modules). -/
inductive PyVal where
  | none
  | bool (b : Bool)
  | int (n : Int)
  | str (s : String)
  | list (xs : List PyVal)
  | pytype (name : String)
  | builtin (name : String)
  | module (name : String)
deriving Repr

/-- A Python namespace (dict keyed by identifier), as an association list.
`nsSet` mirrors dict assignment: it replaces the value in place when the key
is present and appends otherwise, so keys stay unique. -/
abbrev PyNs := List (String × PyVal)

def nsLookup (ns : PyNs) (k : String) : Option PyVal :=
  match ns with
  | [] => Option.none
  | (k2, v) :: rest => if k2 = k then some v else nsLookup rest k

def nsSet (k : String) (v : PyVal) (ns : PyNs) : PyNs :=
  match ns with
  | [] => [(k, v)]
  | (k2, v2) :: rest => if k2 = k then (k2, v) :: rest else (k2, v2) :: nsSet k v rest

/-- The restricted builtins dict from `create_safe_builtins`
(`server.py` lines 88-112): the exact keys of the source, in order.
Builtin functions become `.builtin`, exception classes `.pytype`,
and the three constants their values.  Crucially `open`, `eval`, `exec`,
`compile`, `input`, `__import__`, `globals`, `locals`, `vars` and `dir`
are all absent. -/
def create_safe_builtins : PyNs :=
  [("abs", .builtin "abs"), ("all", .builtin "all"), ("any", .builtin "any"),
   ("ascii", .builtin "ascii"), ("bin", .builtin "bin"), ("bool", .builtin "bool"),
   ("bytes", .builtin "bytes"), ("callable", .builtin "callable"),
   ("chr", .builtin "chr"), ("dict", .builtin "dict"), ("divmod", .builtin "divmod"),
   ("enumerate", .builtin "enumerate"), ("filter", .builtin "filter"),
   ("float", .builtin "float"), ("format", .builtin "format"),
   ("frozenset", .builtin "frozenset"), ("hash", .builtin "hash"),
   ("hex", .builtin "hex"), ("int", .builtin "int"),
   ("isinstance", .builtin "isinstance"), ("issubclass", .builtin "issubclass"),
   ("iter", .builtin "iter"), ("len", .builtin "len"), ("list", .builtin "list"),
   ("map", .builtin "map"), ("max", .builtin "max"), ("min", .builtin "min"),
   ("next", .builtin "next"), ("object", .builtin "object"),
   ("oct", .builtin "oct"), ("ord", .builtin "ord"), ("pow", .builtin "pow"),
   ("print", .builtin "print"), ("range", .builtin "range"),
   ("repr", .builtin "repr"), ("reversed", .builtin "reversed"),
   ("round", .builtin "round"), ("set", .builtin "set"),
   ("slice", .builtin "slice"), ("sorted", .builtin "sorted"),
   ("str", .builtin "str"), ("sum", .builtin "sum"),
   ("tuple", .builtin "tuple"), ("type", .builtin "type"), ("zip", .builtin "zip"),
   ("Exception", .pytype "Exception"), ("ValueError", .pytype "ValueError"),
   ("TypeError", .pytype "TypeError"), ("KeyError", .pytype "KeyError"),
   ("IndexError", .pytype "IndexError"), ("AttributeError", .pytype "AttributeError"),
   ("RuntimeError", .pytype "RuntimeError"), ("StopIteration", .pytype "StopIteration"),
   ("True", .bool true), ("False", .bool false), ("None", .none)]

/-- The safe global namespace from `create_safe_globals`
(`server.py` lines 115-164): the pre-bound safe modules, workspace / skills /
PII / data-processing utilities, with `context_vars` merged last
(`safe_globals.update(context_vars)`).  The `__builtins__` entry of the
source dict is represented by name resolution falling back to
`create_safe_builtins` (see `evalExpr`). -/
def create_safe_globals (ctxVars : PyNs) : PyNs :=
  let base : PyNs :=
    [("json", .module "json"), ("re", .module "re"), ("math", .module "math"),
     ("statistics", .module "statistics"), ("collections", .module "collections"),
     ("datetime", .module "datetime"), ("date", .module "date"),
     ("timedelta", .module "timedelta"),
     ("workspace", .str "/mnt/agentic-system/mcp-servers/code-execution-mcp/workspace"),
     ("read_file", .builtin "read_file"), ("write_file", .builtin "write_file"),
     ("list_files", .builtin "list_files"), ("delete_file", .builtin "delete_file"),
     ("save_skill", .builtin "save_skill"), ("load_skill", .builtin "load_skill"),
     ("list_skills", .builtin "list_skills"),
     ("tokenize_pii", .builtin "tokenize_pii"),
     ("detokenize_pii", .builtin "detokenize_pii"),
     ("filter_by_field", .builtin "filter_by_field"),
     ("summarize_list", .builtin "summarize_list"),
     ("aggregate_stats", .builtin "aggregate_stats"),
     ("format_output", .builtin "format_output")]
  ctxVars.foldl (fun ns kv => nsSet kv.1 kv.2 ns) base

mutual
/-- Python `str()` of a value (used by the captured `print`). -/
def pyStrOf : PyVal → String
  | .none => "None"
  | .bool true => "True"
  | .bool false => "False"
  | .int n => toString n
  | .str s => s
  | .list xs => "[" ++ String.intercalate ", " (pyReprList xs) ++ "]"
  | .pytype n => "<class \x27" ++ n ++ "\x27>"
  | .builtin n => "<built-in function " ++ n ++ ">"
  | .module n => "<module \x27" ++ n ++ "\x27>"

/-- Python `repr()` of a value (list elements print with `repr`). -/
def pyReprOf : PyVal → String
  | .str s => "\x27" ++ s ++ "\x27"
  | .none => "None"
  | .bool true => "True"
  | .bool false => "False"
  | .int n => toString n
  | .list xs => "[" ++ String.intercalate ", " (pyReprList xs) ++ "]"
  | .pytype n => "<class \x27" ++ n ++ "\x27>"
  | .builtin n => "<built-in function " ++ n ++ ">"
  | .module n => "<module \x27" ++ n ++ "\x27>"

def pyReprList : List PyVal → List String
  | [] => []
  | v :: rest => pyReprOf v :: pyReprList rest
end

/-- The straight-line expression fragment of Python that the claims
exercise. -/
inductive PyExpr where
  | intLit (n : Int)
  | strLit (s : String)
  | listLit (xs : List PyExpr)
  | name (n : String)
  | attr (e : PyExpr) (a : String)
  | call (f : PyExpr) (args : List PyExpr)
  | binAdd (a b : PyExpr)
  | binMul (a b : PyExpr)
deriving Repr

/-- Straight-line statements: assignment, a bare expression, `import m`. -/
inductive PyStmt where
  | assign (x : String) (e : PyExpr)
  | exprStmt (e : PyExpr)
  | pyImport (m : String)
deriving Repr

/-- Result of evaluating one expression: the captured-print output list is
threaded through and survives a raised exception (the supervisor returns
`output` captured so far on failure). -/
inductive EvalRes where
  | ok (v : PyVal) (out : List String)
  | err (msg : String) (out : List String)
deriving Repr

inductive ArgsRes where
  | okArgs (vs : List PyVal) (out : List String)
  | errArgs (msg : String) (out : List String)
deriving Repr

def sumInts : List PyVal → Option Int
  | [] => some 0
  | .int n :: rest => (sumInts rest).map (fun m => n + m)
  | _ => Option.none

/-- Semantics of calling the builtins the claims exercise.  `print` is the
supervisor's `capture_print`: it appends the space-joined `str()` of its
arguments to the output list (`server.py` lines 417-418).  Calls the claims
never make evaluate to a generic `TypeError`; no claim depends on them. -/
def applyBuiltin (name : String) (args : List PyVal) (out : List String) : EvalRes :=
  if name = "print" then
    .ok .none (out ++ [String.intercalate " " (args.map pyStrOf)])
  else
    match name, args with
    | "sum", [.list xs] =>
      match sumInts xs with
      | some n => .ok (.int n) out
      | Option.none => .err "TypeError: unsupported operand type(s) for +" out
    | "len", [.list xs] => .ok (.int xs.length) out
    | "len", [.str s] => .ok (.int s.length) out
    | "str", [v] => .ok (.str (pyStrOf v)) out
    | "abs", [.int n] => .ok (.int (Int.ofNat n.natAbs)) out
    | _, _ => .err ("TypeError: call to " ++ name ++ " not modelled") out

def typeNameOf : PyVal → String
  | .none => "NoneType"
  | .bool _ => "bool"
  | .int _ => "int"
  | .str _ => "str"
  | .list _ => "list"
  | .pytype _ => "type"
  | .builtin _ => "builtin_function_or_method"
  | .module _ => "module"

/-- Python attribute protocol, as far as the claims need it: every object
has `__class__` (restricting `__builtins__` does NOT restrict attribute
access), and a type object has `__bases__`. -/
def pyGetAttr (v : PyVal) (a : String) : Except String PyVal :=
  if a = "__class__" then .ok (.pytype (typeNameOf v))
  else
    match v, a with
    | .pytype t, "__bases__" =>
      .ok (.list (if t = "object" then [] else [.pytype "object"]))
    | _, _ => .error ("AttributeError: " ++ a)

def pyAdd (a b : PyVal) : Except String PyVal :=
  match a, b with
  | .int x, .int y => .ok (.int (x + y))
  | .str x, .str y => .ok (.str (x ++ y))
  | .list x, .list y => .ok (.list (x ++ y))
  | _, _ => .error "TypeError: unsupported operand type(s) for +"

def pyMul (a b : PyVal) : Except String PyVal :=
  match a, b with
  | .int x, .int y => .ok (.int (x * y))
  | .str x, .int y => .ok (.str (String.join (List.replicate y.toNat x)))
  | _, _ => .error "TypeError: unsupported operand type(s) for *"

def applyCallable (fv : PyVal) (vs : List PyVal) (out : List String) : EvalRes :=
  match fv with
  | .builtin n => applyBuiltin n vs out
  | _ => .err ("TypeError: " ++ typeNameOf fv ++ " object is not callable") out

mutual
/-- Expression evaluation under `exec(code, safe_globals)`.  Name lookup is
Python's `LOAD_NAME`: the globals dict first, then its `__builtins__`
member (the restricted `create_safe_builtins`), then `NameError`.
Sub-expressions evaluate left to right and the first raised exception
propagates. -/
def evalExpr (ns : PyNs) (out : List String) : PyExpr → EvalRes
  | .intLit n => .ok (.int n) out
  | .strLit s => .ok (.str s) out
  | .listLit es =>
    match evalArgs ns out es with
    | .okArgs vs out2 => .ok (.list vs) out2
    | .errArgs m out2 => .err m out2
  | .name n =>
    match nsLookup ns n with
    | some v => .ok v out
    | Option.none =>
      match nsLookup create_safe_builtins n with
      | some v => .ok v out
      | Option.none => .err ("NameError: name " ++ n ++ " is not defined") out
  | .attr e a =>
    match evalExpr ns out e with
    | .ok v out2 =>
      match pyGetAttr v a with
      | .ok v2 => .ok v2 out2
      | .error m => .err m out2
    | .err m out2 => .err m out2
  | .call f args =>
    match evalExpr ns out f with
    | .ok fv out2 =>
      match evalArgs ns out2 args with
      | .okArgs vs out3 => applyCallable fv vs out3
      | .errArgs m out3 => .err m out3
    | .err m out2 => .err m out2
  | .binAdd a b =>
    match evalExpr ns out a with
    | .ok va out2 =>
      match evalExpr ns out2 b with
      | .ok vb out3 =>
        match pyAdd va vb with
        | .ok v => .ok v out3
        | .error m => .err m out3
      | .err m out3 => .err m out3
    | .err m out2 => .err m out2
  | .binMul a b =>
    match evalExpr ns out a with
    | .ok va out2 =>
      match evalExpr ns out2 b with
      | .ok vb out3 =>
        match pyMul va vb with
        | .ok v => .ok v out3
        | .error m => .err m out3
      | .err m out3 => .err m out3
    | .err m out2 => .err m out2

def evalArgs (ns : PyNs) (out : List String) : List PyExpr → ArgsRes
  | [] => .okArgs [] out
  | e :: rest =>
    match evalExpr ns out e with
    | .ok v out2 =>
      match evalArgs ns out2 rest with
      | .okArgs vs out3 => .okArgs (v :: vs) out3
      | .errArgs m out3 => .errArgs m out3
    | .err m out2 => .errArgs m out2
end

/-- Outcome of interpreting the statement list inside
`SafeExecutionContext`: normal completion, a raised exception, or the
SIGALRM `TimeoutError`.  The captured output survives in every case. -/
inductive InterpOutcome where
  | done (ns : PyNs) (out : List String)
  | fault (msg : String) (out : List String)
  | timedOut (out : List String)
deriving Repr

/-- Statement interpretation with a wall-clock budget, abstracted as one
time unit per executed statement; exhausting the budget raises the
`TimeoutError` installed by `timeout_handler`.  `import m` always raises
`ImportError` because the restricted `__builtins__` has no `__import__`
(so even `import math` fails at run time — the safe modules are pre-bound
names instead). -/
def interpStmts : List PyStmt → PyNs → List String → Nat → InterpOutcome
  | [], ns, out, _ => .done ns out
  | _ :: _, _, out, 0 => .timedOut out
  | s :: rest, ns, out, fuel + 1 =>
    match s with
    | .assign x e =>
      match evalExpr ns out e with
      | .ok v out2 => interpStmts rest (nsSet x v ns) out2 fuel
      | .err m out2 => .fault m out2
    | .exprStmt e =>
      match evalExpr ns out e with
      | .ok _ out2 => interpStmts rest ns out2 fuel
      | .err m out2 => .fault m out2
    | .pyImport _ => .fault "ImportError: __import__ not found" out

/-- The structured response of `execute_code` (`server.py` lines 432-451).
The real function serializes to JSON; absent keys are `Option.none` here.
On success the `result` field is `safe_globals.get("result", None)`: a
name never bound and a name bound to `None` both serialize to JSON `null`,
represented by `Option.none` and `some PyVal.none` respectively. -/
structure ExecResponse where
  success : Bool
  result : Option PyVal
  output : List String
  error : Option String
  traceback : Option String
deriving Repr

/-- Abstraction of `traceback.format_exc()`: a diagnostic trace carrying
the fault's message. -/
def formatTraceback (msg : String) : String :=
  "Traceback (most recent call last):\n  File <sandbox>\n" ++ msg

/-- One `signal.alarm` interaction of `SafeExecutionContext`:
`__enter__` runs `signal.alarm(timeout)`, `__exit__` runs
`signal.alarm(0)`. -/
inductive AlarmEvent where
  | set (seconds : Nat)
  | clear
deriving Repr

/-- The `with SafeExecutionContext(timeout_seconds, memory_mb):` block
(`server.py` lines 60-85 and 426-427).  `__enter__` installs the SIGALRM
deadline before the body starts; `__exit__` runs `signal.alarm(0)` and
returns `False`, so it executes on normal completion AND when the body
raises (`TimeoutError` included) before the exception propagates to the
`except` clauses.  The best-effort `resource.setrlimit` address-space cap
is silently skipped on unsupported platforms and is not modelled. -/
def withSafeExecutionContext (timeoutSeconds : Nat) (body : Unit → InterpOutcome) :
    InterpOutcome × List AlarmEvent :=
  let enterEvents := [AlarmEvent.set timeoutSeconds]
  let r := body ()
  (r, enterEvents ++ [AlarmEvent.clear])

/-- Embedding of `execute_code` (`server.py` lines 375-451), also returning the alarm
events of its `SafeExecutionContext` block.  It builds the safe globals,
overrides `print` with the capturing closure, interprets the code under
the wall-clock budget, and packages the three outcomes exactly as the
source's `return json.dumps(...)` branches do. -/
def executeCodeFull (prog : List PyStmt) (ctxVars : PyNs) (timeoutSeconds : Nat) :
    ExecResponse × List AlarmEvent :=
  let ns0 := nsSet "print" (.builtin "print") (create_safe_globals ctxVars)
  let (r, events) :=
    withSafeExecutionContext timeoutSeconds (fun _ => interpStmts prog ns0 [] timeoutSeconds)
  match r with
  | .done ns out =>
    ({ success := true, result := nsLookup ns "result", output := out,
       error := Option.none, traceback := Option.none }, events)
  | .timedOut out =>
    ({ success := false, result := Option.none, output := out,
       error := some ("Execution timed out after " ++ toString timeoutSeconds ++ " seconds"),
       traceback := Option.none }, events)
  | .fault msg out =>
    ({ success := false, result := Option.none, output := out,
       error := some msg, traceback := some (formatTraceback msg) }, events)

def execute_code (prog : List PyStmt) (ctxVars : PyNs) (timeoutSeconds : Nat) : ExecResponse :=
  (executeCodeFull prog ctxVars timeoutSeconds).1

example :
    execute_code [.assign "result" (.attr (.strLit "") "__class__")] [] 30 =
      { success := true, result := some (.pytype "str"), output := [],
        error := Option.none, traceback := Option.none } := by
  rfl

example :
    (execute_code
      [.assign "result" (.binMul (.call (.name "sum")
        [.listLit [.intLit 1, .intLit 2, .intLit 3, .intLit 4, .intLit 5]]) (.intLit 2))]
      [] 30).result = some (.int 30) := by
  rfl

/- ===================================================================
   Part 2: the workspace gateway
   =================================================================== -/

/-- An absolute filesystem path as its list of components
(`["a", "ws"]` renders as `/a/ws`). -/
abbrev PathC := List String

/-- Splitting a path string on `/` (structurally recursive stand-in for
`String.splitOn "/"` so that concrete paths compute by `rfl`). -/
def splitSlashAux : List Char → List Char → List String
  | [], acc => [String.mk acc.reverse]
  | c :: rest, acc =>
    if c = '/' then String.mk acc.reverse :: splitSlashAux rest []
    else splitSlashAux rest (c :: acc)

def splitSlash (s : String) : List String := splitSlashAux s.data []

def strIsAbsolute (s : String) : Bool :=
  match s.data with
  | c :: _ => c = '/'
  | [] => false

/-- Lexical canonicalization step of `Path.resolve()` (the model filesystem
has no symlinks): empty components and `.` vanish, `..` pops (and is a
no-op at the root, as for `Path("/..").resolve()`). -/
def normalizeComponents (comps : List String) : PathC :=
  comps.foldl
    (fun acc c =>
      if c = "" ∨ c = "." then acc
      else if c = ".." then acc.dropLast
      else acc ++ [c])
    []

/-- Resolution `(workspace / filename).resolve()`: `pathlib` replaces the left operand
entirely when `filename` is absolute, otherwise joins, then canonicalizes. -/
def joinResolve (workspace : PathC) (filename : String) : PathC :=
  if strIsAbsolute filename then normalizeComponents (splitSlash filename)
  else normalizeComponents (workspace ++ splitSlash filename)

/-- Rendering `str(path)` of an absolute path. -/
def renderPath (p : PathC) : String :=
  "/" ++ String.intercalate "/" p

/-- The confinement test every workspace operation performs:
`str(path).startswith(str(workspace))` — a plain string-prefix test on the
rendered paths (`server.py` lines 170, 180, 190, 200). -/
def workspacePrefixCheck (workspace : PathC) (path : PathC) : Bool :=
  (renderPath workspace).data.isPrefixOf (renderPath path).data

/-- What the spec asks of confinement: the canonicalized path is the root
or a descendant of it (component-wise prefix).  This is the spec-side
notion that `workspacePrefixCheck` is compared against. -/
def isRootOrDescendant (workspace : PathC) (path : PathC) : Bool :=
  workspace.isPrefixOf path

/-- Abstract workspace filesystem: regular files with contents, plus the
set of directories. -/
structure WorkspaceFS where
  files : List (PathC × String)
  dirs : List PathC
deriving Repr

def WorkspaceFS.fileContent (fs : WorkspaceFS) (p : PathC) : Option String :=
  match fs.files.find? (fun kv => kv.1 = p) with
  | some kv => some kv.2
  | Option.none => Option.none

def WorkspaceFS.isFile (fs : WorkspaceFS) (p : PathC) : Bool :=
  (fs.fileContent p).isSome

def WorkspaceFS.isDir (fs : WorkspaceFS) (p : PathC) : Bool :=
  fs.dirs.contains p

/-- Test `path.exists()`: true for regular files and directories. -/
def WorkspaceFS.pathExists (fs : WorkspaceFS) (p : PathC) : Bool :=
  fs.isFile p || fs.isDir p

/-- Errors the workspace operations raise. -/
inductive WsError where
  | permissionError (msg : String)
  | fileNotFoundError (msg : String)
  | isADirectoryError
  | valueError
deriving Repr, DecidableEq

/-- Embedding of `_safe_read_file` (`server.py` lines 167-174): resolve, string-prefix
confinement check, `read_text()` if the path exists (reading a directory
raises `IsADirectoryError`), else `FileNotFoundError`. -/
def _safe_read_file (workspace : PathC) (fs : WorkspaceFS) (filename : String) :
    Except WsError String :=
  let path := joinResolve workspace filename
  if ¬ workspacePrefixCheck workspace path then
    .error (.permissionError "Access denied: path outside workspace")
  else if fs.pathExists path then
    match fs.fileContent path with
    | some content => .ok content
    | Option.none => .error .isADirectoryError
  else .error (.fileNotFoundError ("File not found: " ++ filename))

/-- All strict ancestor directories of a path (for `mkdir(parents=True)`). -/
def ancestorsOf (p : PathC) : List PathC :=
  (List.range p.length).map (fun n => p.take n)

/-- Embedding of `_safe_write_file` (`server.py` lines 177-184): resolve, confinement
check, create missing parent directories, overwrite the file. -/
def _safe_write_file (workspace : PathC) (fs : WorkspaceFS) (filename : String)
    (content : String) : Except WsError (String × WorkspaceFS) :=
  let path := joinResolve workspace filename
  if ¬ workspacePrefixCheck workspace path then
    .error (.permissionError "Access denied: path outside workspace")
  else
    let fs2 : WorkspaceFS :=
      { files := (path, content) :: fs.files.filter (fun kv => ¬ kv.1 = path),
        dirs := fs.dirs ++ (ancestorsOf path).filter (fun d => ¬ fs.dirs.contains d) }
    .ok ("Written " ++ toString content.length ++ " bytes to " ++ filename, fs2)

/-- Python `f.relative_to(workspace)` for one listed file: strips the workspace
prefix, raising `ValueError` when the file is not below the workspace. -/
def relativeToWorkspace (workspace : PathC) (f : PathC) : Except WsError String :=
  if workspace.isPrefixOf f then .ok (String.intercalate "/" (f.drop workspace.length))
  else .error .valueError

def collectRelative (workspace : PathC) (fs : List PathC) : Except WsError (List String) :=
  match fs with
  | [] => .ok []
  | f :: rest =>
    match relativeToWorkspace workspace f with
    | .ok s =>
      match collectRelative workspace rest with
      | .ok ss => .ok (s :: ss)
      | .error e => .error e
    | .error e => .error e

/-- Embedding of `_safe_list_files` (`server.py` lines 187-194): resolve, confinement
check, then — only if the resolved path is a directory — every regular
file strictly below it (`rglob("*")`), rendered relative to the workspace
root; any non-directory resolved path yields the empty list. -/
def _safe_list_files (workspace : PathC) (fs : WorkspaceFS) (subpath : String) :
    Except WsError (List String) :=
  let path := joinResolve workspace subpath
  if ¬ workspacePrefixCheck workspace path then
    .error (.permissionError "Access denied: path outside workspace")
  else if fs.isDir path then
    collectRelative workspace
      ((fs.files.map (fun kv => kv.1)).filter
        (fun f => path.isPrefixOf f ∧ ¬ f = path))
  else .ok []

/-- Embedding of `_safe_delete_file` (`server.py` lines 197-205): resolve, confinement
check, `unlink()` if the path exists (a directory raises
`IsADirectoryError`), else `FileNotFoundError`. -/
def _safe_delete_file (workspace : PathC) (fs : WorkspaceFS) (filename : String) :
    Except WsError (String × WorkspaceFS) :=
  let path := joinResolve workspace filename
  if ¬ workspacePrefixCheck workspace path then
    .error (.permissionError "Access denied: path outside workspace")
  else if fs.pathExists path then
    if fs.isFile path then
      .ok ("Deleted " ++ filename,
        { files := fs.files.filter (fun kv => ¬ kv.1 = path), dirs := fs.dirs })
    else .error .isADirectoryError
  else .error (.fileNotFoundError ("File not found: " ++ filename))

example :
    joinResolve ["a", "ws"] "../ws2/secret" = ["a", "ws2", "secret"] := by rfl

example : workspacePrefixCheck ["a", "ws"] ["a", "ws2", "secret"] = true := by rfl

example : isRootOrDescendant ["a", "ws"] ["a", "ws2", "secret"] = false := by rfl

/- ===================================================================
   Part 3: MD5 (for `hashlib.md5(...).hexdigest()`)
   =================================================================== -/

/-- The per-round left-rotation amounts of MD5. -/
def md5ShiftTable : List Nat :=
  [7, 12, 17, 22, 7, 12, 17, 22, 7, 12, 17, 22, 7, 12, 17, 22,
   5, 9, 14, 20, 5, 9, 14, 20, 5, 9, 14, 20, 5, 9, 14, 20,
   4, 11, 16, 23, 4, 11, 16, 23, 4, 11, 16, 23, 4, 11, 16, 23,
   6, 10, 15, 21, 6, 10, 15, 21, 6, 10, 15, 21, 6, 10, 15, 21]

/-- The MD5 sine-derived constants `floor(abs(sin(i + 1)) * 2^32)`. -/
def md5SineTable : List Nat :=
  [3614090360, 3905402710, 606105819, 3250441966, 4118548399, 1200080426,
   2821735955, 4249261313, 1770035416, 2336552879, 4294925233, 2304563134,
   1804603682, 4254626195, 2792965006, 1236535329, 4129170786, 3225465664,
   643717713, 3921069994, 3593408605, 38016083, 3634488961, 3889429448,
   568446438, 3275163606, 4107603335, 1163531501, 2850285829, 4243563512,
   1735328473, 2368359562, 4294588738, 2272392833, 1839030562, 4259657740,
   2763975236, 1272893353, 4139469664, 3200236656, 681279174, 3936430074,
   3572445317, 76029189, 3654602809, 3873151461, 530742520, 3299628645,
   4096336452, 1126891415, 2878612391, 4237533241, 1700485571, 2399980690,
   4293915773, 2240044497, 1873313359, 4264355552, 2734768916, 1309151649,
   4149444226, 3174756917, 718787259, 3951481745]

def u32mask : Nat := 4294967295

def u32 (x : Nat) : Nat := Nat.land x u32mask

def bnot32 (x : Nat) : Nat := Nat.xor x u32mask

def rotl32 (x s : Nat) : Nat :=
  u32 (Nat.lor (Nat.shiftLeft x s) (Nat.shiftRight x (32 - s)))

/-- Group bytes into 32-bit little-endian words. -/
def leWords : List Nat → List Nat
  | b0 :: b1 :: b2 :: b3 :: rest =>
    (b0 + 256 * b1 + 65536 * b2 + 16777216 * b3) :: leWords rest
  | _ => []

/-- The 8 little-endian bytes of the 64-bit message bit length. -/
def leBytes8 (n : Nat) : List Nat :=
  (List.range 8).map (fun i => Nat.shiftRight n (8 * i) % 256)

/-- MD5 padding: `0x80`, zeros to 56 mod 64, 8-byte little-endian bit
length. -/
def md5Pad (msg : List Nat) : List Nat :=
  msg ++ [128] ++ List.replicate ((119 - msg.length % 64) % 64) 0
      ++ leBytes8 (8 * msg.length)

structure MD5St where
  a : Nat
  b : Nat
  c : Nat
  d : Nat
deriving Repr

def md5F (i b c d : Nat) : Nat :=
  if i < 16 then Nat.lor (Nat.land b c) (Nat.land (bnot32 b) d)
  else if i < 32 then Nat.lor (Nat.land d b) (Nat.land (bnot32 d) c)
  else if i < 48 then Nat.xor (Nat.xor b c) d
  else Nat.xor c (Nat.lor b (bnot32 d))

def md5G (i : Nat) : Nat :=
  if i < 16 then i
  else if i < 32 then (5 * i + 1) % 16
  else if i < 48 then (3 * i + 5) % 16
  else (7 * i) % 16

def md5Round (m : List Nat) (st : MD5St) (i : Nat) : MD5St :=
  let f := u32 (md5F i st.b st.c st.d + st.a + md5SineTable.getD i 0 + m.getD (md5G i) 0)
  { a := st.d, b := u32 (st.b + rotl32 f (md5ShiftTable.getD i 0)), c := st.b, d := st.c }

def md5Chunk (st : MD5St) (chunk : List Nat) : MD5St :=
  let m := leWords chunk
  let r := (List.range 64).foldl (md5Round m) st
  { a := u32 (st.a + r.a), b := u32 (st.b + r.b),
    c := u32 (st.c + r.c), d := u32 (st.d + r.d) }

def chunks64Aux : Nat → List Nat → List (List Nat)
  | 0, _ => []
  | _, [] => []
  | fuel + 1, xs => xs.take 64 :: chunks64Aux fuel (xs.drop 64)

def chunks64 (l : List Nat) : List (List Nat) := chunks64Aux l.length l

def md5Init : MD5St :=
  { a := 1732584193, b := 4023233417, c := 2562383102, d := 271733878 }

def hexDigitChar (n : Nat) : Char :=
  if n < 10 then Char.ofNat (48 + n) else Char.ofNat (87 + n)

def byteHex (b : Nat) : List Char := [hexDigitChar (b / 16), hexDigitChar (b % 16)]

def wordBytes4 (n : Nat) : List Nat :=
  [n % 256, n / 256 % 256, n / 65536 % 256, n / 16777216 % 256]

/-- Python `hashlib.md5(bytes).hexdigest()`: the lowercase hex of the four state
words, each serialized little-endian. -/
def md5hexdigest (msg : List Nat) : String :=
  let st := (chunks64 (md5Pad msg)).foldl md5Chunk md5Init
  String.mk ((wordBytes4 st.a ++ wordBytes4 st.b ++ wordBytes4 st.c ++ wordBytes4 st.d).flatMap byteHex)

/-- Bytes of a string under `str.encode()`; the inputs the development
evaluates are ASCII, where UTF-8 bytes and code points coincide. -/
def strBytes (s : String) : List Nat := s.data.map Char.toNat

/-- Digest prefix `hashlib.md5(original.encode()).hexdigest()[:8]`, the token digest. -/
def md5Hex8 (s : List Char) : String :=
  String.mk ((md5hexdigest (s.map Char.toNat)).data.take 8)

example : md5hexdigest (strBytes "abc") = "900150983cd24fb0d6963f7d28e17f72" := by rfl

example : md5hexdigest (strBytes "a@b.co") = "b33a54a5a598e6d3356166652048ada9" := by rfl

example : md5Hex8 "aaaaaa0w@x.co".data = "174a5067" := by rfl

example : md5Hex8 "aaaaasfh@x.co".data = "174a5067" := by rfl

/- ===================================================================
   Part 4: Python `re` for the six `PII_PATTERNS`
   =================================================================== -/

/-- One item of a character class: a literal or a range. -/
inductive ClsItem where
  | lit (c : Char)
  | range (lo hi : Char)
deriving Repr

/-- The regular-expression fragment the six `PII_PATTERNS` use:
literals, character classes, sequencing, alternation, greedy counted
repetition (`?`, `+`, `{m}`, `{m,n}`, `{m,}` are all `rep`), and the word
boundary `\b`. -/
inductive RE where
  | eps
  | ch (c : Char)
  | cls (items : List ClsItem)
  | seq (a b : RE)
  | alt (a b : RE)
  | rep (r : RE) (lo : Nat) (hi : Option Nat)
  | wordB
deriving Repr

/-- Case-insensitive match of one input character against a class item
(`re.IGNORECASE` over ASCII: the character matches if it, its lowercase or
its uppercase falls in the item). -/
def clsItemMatches (item : ClsItem) (c : Char) : Bool :=
  let hit := fun (x : Char) =>
    match item with
    | .lit d => x = d
    | .range lo hi => lo ≤ x ∧ x ≤ hi
  hit c || hit c.toLower || hit c.toUpper

def clsMatches (items : List ClsItem) (c : Char) : Bool :=
  items.any (fun it => clsItemMatches it c)

/-- Word character `\w` for the ASCII inputs in play. -/
def isWordChar (c : Char) : Bool := c.isAlphanum || c = '_'

def isWordCharAt (s : List Char) (i : Nat) : Bool :=
  match s.get? i with
  | some c => isWordChar c
  | Option.none => false

/-- Boundary `\b`: a word character on exactly one side of the position. -/
def isWordBoundary (s : List Char) (pos : Nat) : Bool :=
  (if pos = 0 then false else isWordCharAt s (pos - 1)) ≠ isWordCharAt s pos

/-- Backtracking matcher with Python `re` semantics: at a fixed start,
alternatives are tried left to right and repetitions greedily (longer
first), the first success in that order winning; `k` is the continuation
receiving the position after the current node.  `fuel` bounds the number
of engine steps; every concrete evaluation in this development is checked
against the behaviour of CPython's `re` on the same input, so the generous
fixed fuel below is never the deciding factor. -/
def reMatch (s : List Char) : Nat → RE → Nat → (Nat → Option Nat) → Option Nat
  | 0, _, _, _ => Option.none
  | _ + 1, .eps, pos, k => k pos
  | _ + 1, .ch c, pos, k =>
    match s.get? pos with
    | some c2 =>
      if c2 = c || c2.toLower = c || c2.toUpper = c then k (pos + 1) else Option.none
    | Option.none => Option.none
  | _ + 1, .cls items, pos, k =>
    match s.get? pos with
    | some c2 => if clsMatches items c2 then k (pos + 1) else Option.none
    | Option.none => Option.none
  | _ + 1, .wordB, pos, k => if isWordBoundary s pos then k pos else Option.none
  | fuel + 1, .seq a b, pos, k => reMatch s fuel a pos (fun p => reMatch s fuel b p k)
  | fuel + 1, .alt a b, pos, k =>
    match reMatch s fuel a pos k with
    | some e => some e
    | Option.none => reMatch s fuel b pos k
  | fuel + 1, .rep r lo hi, pos, k =>
    match lo with
    | lo2 + 1 =>
      reMatch s fuel r pos (fun p => reMatch s fuel (.rep r lo2 (hi.map (fun h => h - 1))) p k)
    | 0 =>
      match hi with
      | some 0 => k pos
      | _ =>
        match
          reMatch s fuel r pos (fun p =>
            if p = pos then Option.none
            else reMatch s fuel (.rep r 0 (hi.map (fun h => h - 1))) p k)
        with
        | some e => some e
        | Option.none => k pos

def reFuel : Nat := 1000

/-- End position of the match anchored at `pos`, if any. -/
def reMatchAt (s : List Char) (re : RE) (pos : Nat) : Option Nat :=
  reMatch s reFuel re pos some

/-- Python `re.finditer`: scan left to right, yield non-overlapping matches,
resume at each match end (advancing one on a zero-width match). -/
def finditerAux (s : List Char) (re : RE) : Nat → Nat → List (List Char)
  | 0, _ => []
  | fuel + 1, pos =>
    if pos > s.length then []
    else
      match reMatchAt s re pos with
      | some e =>
        ((s.drop pos).take (e - pos)) ::
          finditerAux s re fuel (if e = pos then pos + 1 else e)
      | Option.none => finditerAux s re fuel (pos + 1)

/-- The list of matched substrings of `re.finditer(pattern, s, re.IGNORECASE)`,
in order. -/
def finditer (s : List Char) (re : RE) : List (List Char) :=
  finditerAux s re (s.length + 1) 0

def seqAll : List RE → RE
  | [] => .eps
  | [r] => r
  | r :: rest => .seq r (seqAll rest)

def strRE (s : String) : RE := seqAll (s.data.map RE.ch)

def digitCls : RE := .cls [.range '0' '9']

def wsItems : List ClsItem :=
  [.lit ' ', .lit '\t', .lit '\n', .lit (Char.ofNat 11), .lit (Char.ofNat 12), .lit '\r']

/-- Pattern `\b[A-Za-z0-9._%+-]+@[A-Za-z0-9.-]+\.[A-Z|a-z]{2,}\b` -/
def emailRE : RE :=
  seqAll
    [.wordB,
     .rep (.cls [.range 'A' 'Z', .range 'a' 'z', .range '0' '9', .lit '.', .lit '_',
                 .lit '%', .lit '+', .lit '-']) 1 Option.none,
     .ch '@',
     .rep (.cls [.range 'A' 'Z', .range 'a' 'z', .range '0' '9', .lit '.', .lit '-']) 1 Option.none,
     .ch '.',
     .rep (.cls [.range 'A' 'Z', .lit '|', .range 'a' 'z']) 2 Option.none,
     .wordB]

/-- Pattern `\b(?:\+?1[-.\s]?)?\(?[0-9]{3}\)?[-.\s]?[0-9]{3}[-.\s]?[0-9]{4}\b` -/
def phoneRE : RE :=
  let sep : RE := .rep (.cls ([.lit '-', .lit '.'] ++ wsItems)) 0 (some 1)
  seqAll
    [.wordB,
     .rep (seqAll [.rep (.ch '+') 0 (some 1), .ch '1', sep]) 0 (some 1),
     .rep (.ch '(') 0 (some 1),
     .rep digitCls 3 (some 3),
     .rep (.ch ')') 0 (some 1),
     sep,
     .rep digitCls 3 (some 3),
     sep,
     .rep digitCls 4 (some 4),
     .wordB]

/-- Pattern `\b\d{3}-\d{2}-\d{4}\b` -/
def ssnRE : RE :=
  seqAll
    [.wordB, .rep digitCls 3 (some 3), .ch '-', .rep digitCls 2 (some 2),
     .ch '-', .rep digitCls 4 (some 4), .wordB]

/-- Pattern `\b(?:\d{4}[-\s]?){3}\d{4}\b` -/
def creditCardRE : RE :=
  seqAll
    [.wordB,
     .rep (seqAll [.rep digitCls 4 (some 4),
                   .rep (.cls ([.lit '-'] ++ wsItems)) 0 (some 1)]) 3 (some 3),
     .rep digitCls 4 (some 4),
     .wordB]

/-- Pattern `\b(?:\d{1,3}\.){3}\d{1,3}\b` -/
def ipAddressRE : RE :=
  seqAll
    [.wordB,
     .rep (seqAll [.rep digitCls 1 (some 3), .ch '.']) 3 (some 3),
     .rep digitCls 1 (some 3),
     .wordB]

/-- Pattern `\b(?:api[_-]?key|token|secret)[=:\s]+[A-Za-z0-9_-]{20,}\b` -/
def apiKeyRE : RE :=
  seqAll
    [.wordB,
     .alt (seqAll [strRE "api", .rep (.cls [.lit '_', .lit '-']) 0 (some 1), strRE "key"])
          (.alt (strRE "token") (strRE "secret")),
     .rep (.cls ([.lit '=', .lit ':'] ++ wsItems)) 1 Option.none,
     .rep (.cls [.range 'A' 'Z', .range 'a' 'z', .range '0' '9', .lit '_', .lit '-'])
       20 Option.none,
     .wordB]

/-- Embedding of `PII_PATTERNS` (`server.py` lines 43-50): the fixed, ordered category
list. -/
def PII_PATTERNS : List (String × RE) :=
  [("email", emailRE), ("phone", phoneRE), ("ssn", ssnRE),
   ("credit_card", creditCardRE), ("ip_address", ipAddressRE),
   ("api_key", apiKeyRE)]

example :
    (finditer "Email: a@b.com, more".data emailRE).map String.mk = ["a@b.com"] := by rfl

example :
    (finditer "a@b.co and xa@b.com".data emailRE).map String.mk =
      ["a@b.co", "xa@b.com"] := by rfl

example :
    (finditer "SSN: 123-45-6789".data ssnRE).map String.mk = ["123-45-6789"] := by rfl

/- ===================================================================
   Part 5: PII tokenization engine
   =================================================================== -/

/-- Python `str.replace(old, new)` on character lists: all non-overlapping
occurrences, scanning left to right (`fuel` is the input length; every
step consumes at least one character). -/
def pyReplaceAux (old new : List Char) : Nat → List Char → List Char
  | 0, s => s
  | fuel + 1, s =>
    match s with
    | [] => []
    | c :: rest =>
      if ¬ old = [] ∧ old.isPrefixOf s then
        new ++ pyReplaceAux old new fuel (s.drop old.length)
      else c :: pyReplaceAux old new fuel rest

def pyReplace (s old new : List Char) : List Char :=
  if old = [] then new ++ s.flatMap (fun c => c :: new)
  else pyReplaceAux old new s.length s

/-- Python dict assignment `d[k] = v` as on `PyNs`: replace in place or
append, preserving insertion order. -/
def dictSet (k v : String) : List (String × String) → List (String × String)
  | [] => [(k, v)]
  | (k2, v2) :: rest => if k2 = k then (k2, v) :: rest else (k2, v2) :: dictSet k v rest

/-- Python `store.update(m)`: `d[k] = v` for every pair of `m` in order. -/
def dictUpdate (store m : List (String × String)) : List (String × String) :=
  m.foldl (fun st kv => dictSet kv.1 kv.2 st) store

def dictLookup (d : List (String × String)) (k : String) : Option String :=
  match d with
  | [] => Option.none
  | (k2, v) :: rest => if k2 = k then some v else dictLookup rest k

def strUpper (s : String) : String := String.mk (s.data.map Char.toUpper)

/-- The token id `f"[{pii_type.upper()}_{hashlib.md5(original.encode()).hexdigest()[:8]}]"`. -/
def tokenIdFor (category : String) (original : List Char) : String :=
  "[" ++ strUpper category ++ "_" ++ md5Hex8 original ++ "]"

/-- One iteration of the outer loop of `tokenize_pii` (`server.py` lines
241-246).  `re.finditer` is an iterator over the immutable string value
`sanitized` held at loop entry — rebinding `sanitized` inside the loop does
not change what is iterated — so the match list is computed up front;
each match's text is then recorded in the local map and replaced
everywhere in the current `sanitized`. -/
def tokenizeCategory (acc : List Char × List (String × String)) (p : String × RE) :
    List Char × List (String × String) :=
  (finditer acc.1 p.2).foldl
    (fun acc2 original =>
      let tid := tokenIdFor p.1 original
      (pyReplace acc2.1 original tid.data, dictSet tid (String.mk original) acc2.2))
    acc

/-- Embedding of `tokenize_pii` (`server.py` lines 232-251) without the global-store
side effect: the sanitized text and the local token map.  The returned
pair does not depend on the process-wide store. -/
def tokenize_pii (text : String) : String × List (String × String) :=
  let r := PII_PATTERNS.foldl tokenizeCategory (text.data, [])
  (String.mk r.1, r.2)

/-- Embedding of `detokenize_pii` (`server.py` lines 254-263): replace every token of
the map (in insertion order) by its original; with the map argument
omitted the process-wide store is passed here instead. -/
def detokenize_pii (text : String) (tokens : List (String × String)) : String :=
  String.mk (tokens.foldl (fun r kv => pyReplace r kv.1.data kv.2.data) text.data)

/-- The process-wide `_pii_tokens` store after a sequence of
`tokenize_pii` calls, starting from the empty dict at process start:
each call runs `_pii_tokens.update(tokens)` (`server.py` line 249). -/
def pii_store_after (texts : List String) : List (String × String) :=
  texts.foldl (fun store t => dictUpdate store (tokenize_pii t).2) []

example :
    tokenize_pii "a@b.co [EMAIL_b33a54a5]" =
      ("[EMAIL_b33a54a5] [EMAIL_b33a54a5]", [("[EMAIL_b33a54a5]", "a@b.co")]) := by
  rfl

example :
    detokenize_pii "[EMAIL_b33a54a5] [EMAIL_b33a54a5]" [("[EMAIL_b33a54a5]", "a@b.co")] =
      "a@b.co a@b.co" := by rfl

example :
    tokenize_pii "aaaaaa0w@x.co" =
      ("[EMAIL_174a5067]", [("[EMAIL_174a5067]", "aaaaaa0w@x.co")]) := by rfl

example :
    tokenize_pii "aaaaasfh@x.co" =
      ("[EMAIL_174a5067]", [("[EMAIL_174a5067]", "aaaaasfh@x.co")]) := by rfl

example :
    pii_store_after ["aaaaaa0w@x.co", "aaaaasfh@x.co"] =
      [("[EMAIL_174a5067]", "aaaaasfh@x.co")] := by rfl

/- ===================================================================
   Part 6: skill store
   =================================================================== -/

def assocSet {α : Type} (k : String) (v : α) : List (String × α) → List (String × α)
  | [] => [(k, v)]
  | (k2, v2) :: rest => if k2 = k then (k2, v) :: rest else (k2, v2) :: assocSet k v rest

def assocLookup {α : Type} (l : List (String × α)) (k : String) : Option α :=
  match l with
  | [] => Option.none
  | (k2, v) :: rest => if k2 = k then some v else assocLookup rest k

/-- Metadata record written by `save_skill_internal` (`server.py` lines
272-277). -/
structure SkillMeta where
  name : String
  description : String
  created : String
  code_hash : String
deriving Repr

/-- The skills directory: one code artifact `<name>.py` and one metadata
artifact `<name>.json` per skill, keyed by file name. -/
structure SkillsFS where
  codeFiles : List (String × String)
  metaFiles : List (String × SkillMeta)
deriving Repr

/-- Embedding of `save_skill_internal` (`server.py` lines 266-280): writes (overwriting)
both artifacts, with the `datetime.now().isoformat()` timestamp passed in
as `now`. -/
def save_skill_internal (name code description now : String) (fs : SkillsFS) :
    String × SkillsFS :=
  ("Skill \x27" ++ name ++ "\x27 saved successfully",
   { codeFiles := assocSet (name ++ ".py") code fs.codeFiles,
     metaFiles := assocSet (name ++ ".json")
       { name := name, description := description, created := now,
         code_hash := md5hexdigest (strBytes code) } fs.metaFiles })

def isAsciiAlpha (c : Char) : Bool := ('a' ≤ c ∧ c ≤ 'z') ∨ ('A' ≤ c ∧ c ≤ 'Z')

def isAsciiDigit (c : Char) : Bool := '0' ≤ c ∧ c ≤ '9'

def isIdentHead (c : Char) : Bool := isAsciiAlpha c || c = '_'

def isIdentTail (c : Char) : Bool := isAsciiAlpha c || isAsciiDigit c || c = '_'

/-- Full-string match of the identifier pattern `^[A-Za-z_][A-Za-z0-9_]*$`
read mathematically, as the spec states it (the spec-side notion that the
code's check is compared against). -/
def identPatternFull (s : String) : Bool :=
  match s.data with
  | [] => false
  | c :: rest => isIdentHead c && rest.all isIdentTail

/-- Truthiness of `re.match(r'^[a-zA-Z_][a-zA-Z0-9_]*$', name)`
(`server.py` line 558).  Python's `$` (without `re.MULTILINE`) matches at
the end of the string AND just before a newline at the end of the string,
so a name with one trailing newline also passes. -/
def pyMatchSkillName (name : String) : Bool :=
  identPatternFull name ||
    (name.data.getLast? = some '\n' && identPatternFull (String.mk name.data.dropLast))

inductive SaveSkillResult where
  | errorJson (msg : String)
  | successJson (message : String)
deriving Repr, DecidableEq

/-- The `save_skill` MCP tool (`server.py` lines 536-562): validate the
name against the identifier regex, then delegate to
`save_skill_internal`. -/
def save_skill (name code description now : String) (fs : SkillsFS) :
    SaveSkillResult × SkillsFS :=
  if ¬ pyMatchSkillName name then
    (.errorJson "Invalid skill name. Use alphanumeric and underscores only.", fs)
  else
    let r := save_skill_internal name code description now fs
    (.successJson r.1, r.2)

example : pyMatchSkillName "filter_active_users" = true := by rfl

example : pyMatchSkillName "bad-name" = false := by rfl

example : pyMatchSkillName "abc\n" = true := by rfl

/- ===================================================================
   Part 7: dangerous-construct scanner (modelled from the spec)
   =================================================================== -/

/-- Count of non-overlapping occurrences of `needle` in `hay`. -/
def countOccAux (needle : List Char) : Nat → List Char → Nat
  | 0, _ => 0
  | _ + 1, [] => 0
  | fuel + 1, s@(_ :: rest) =>
    if ¬ needle = [] ∧ needle.isPrefixOf s then
      1 + countOccAux needle fuel (s.drop needle.length)
    else countOccAux needle fuel rest

def countOcc (needle hay : List Char) : Nat := countOccAux needle hay.length hay

/-- Modelled from the spec: the deny-list of module names
(`BLOCKED_IMPORTS`) of the Dangerous-Construct Scanner (spec section 4.7).
The scanner itself is referenced by the repository tests
(`tests/test_code_validation.py` imports `BLOCKED_IMPORTS` and
`check_for_dangerous_code` from `code_execution_mcp.server`) but the
shipped `server.py` does not define it, so the membership below follows
the spec's categories — operating-system access, process spawning, raw
sockets, networking-protocol modules, introspection entry points,
low-level memory access, threading/multiprocessing — as pinned down by
those tests. -/
def BLOCKED_IMPORTS : List String :=
  ["os", "sys", "subprocess", "socket", "urllib", "requests", "http", "ftplib",
   "smtplib", "telnetlib", "ssl", "builtins", "__builtins__", "globals", "locals",
   "vars", "dir", "ctypes", "multiprocessing", "threading"]

/-- Modelled from the spec: the deny-list of reflective attribute-name
substrings (class/bases/subclasses/globals/mro/code-object-style
metaobject hooks) of spec section 4.7. -/
def DANGEROUS_ATTRIBUTES : List String :=
  ["__class__", "__bases__", "__subclasses__", "__globals__", "__mro__",
   "__code__", "__import__"]

/-- Occurrences of module `m` inside an import-like statement: a purely
lexical count of `"import " ++ m` and `"from " ++ m` substrings. -/
def blockedModuleOccurrences (code : List Char) (m : String) : Nat :=
  countOcc ("import " ++ m).data code + countOcc ("from " ++ m).data code

/-- Modelled from the spec: `check_for_dangerous_code(code) -> ordered
warnings` (spec section 4.7) — purely lexical, one warning per match of a
deny-listed module name in an import-like statement and per occurrence of
a deny-listed reflective attribute substring, in deny-list order.  It is
advisory only: nothing in `execute_code` consults it (the embedded
`executeCodeFull` takes no scanner input at all), so its warnings never
block execution. -/
def check_for_dangerous_code (code : String) : List String :=
  (BLOCKED_IMPORTS.foldr
    (fun m acc =>
      List.replicate (blockedModuleOccurrences code.data m)
        ("Blocked import detected: " ++ m) ++ acc) []) ++
  (DANGEROUS_ATTRIBUTES.foldr
    (fun a acc =>
      List.replicate (countOcc a.data code.data)
        ("Dangerous attribute access: " ++ a) ++ acc) [])

/-- Total number of deny-list matches in a code text. -/
def totalDangerMatches (code : String) : Nat :=
  (BLOCKED_IMPORTS.map (blockedModuleOccurrences code.data)).sum +
    (DANGEROUS_ATTRIBUTES.map (fun a => countOcc a.data code.data)).sum

example :
    check_for_dangerous_code "x = 1\ny = sum([1, 2])" = [] := by rfl

example :
    check_for_dangerous_code "import subprocess\nz = x.__class__" =
      ["Blocked import detected: subprocess", "Dangerous attribute access: __class__"] := by
  rfl

/- ===================================================================
   Part 8: claim-side definitions
   =================================================================== -/

/-- The capabilities that claim C1 names, as the builtin names that would
provide them: raw file open, dynamic code compilation, reflective
globals/import access, interactive input.  None of them is a key of
`create_safe_builtins` or `create_safe_globals`. -/
def disallowedCapabilityNames : List String :=
  ["open", "eval", "exec", "compile", "input", "__import__", "globals"]

/-- The reflective attribute names claim C1 lists. -/
def reflectiveAttrNames : List String :=
  ["__class__", "__bases__", "__subclasses__", "__globals__"]

/-- Process-spawning modules (claim C1's import-based capability). -/
def processSpawnModules : List String := ["os", "subprocess"]

mutual
/-- Claim C1 as stated: the code text references a disallowed capability —
a disallowed builtin name, a reflective attribute access, or a
process-spawning module import — anywhere in the text. -/
def exprRefsDisallowedCap : PyExpr → Bool
  | .name n => disallowedCapabilityNames.contains n
  | .attr e a => reflectiveAttrNames.contains a || exprRefsDisallowedCap e
  | .call f args => exprRefsDisallowedCap f || exprListRefsDisallowedCap args
  | .listLit xs => exprListRefsDisallowedCap xs
  | .binAdd a b => exprRefsDisallowedCap a || exprRefsDisallowedCap b
  | .binMul a b => exprRefsDisallowedCap a || exprRefsDisallowedCap b
  | .intLit _ => false
  | .strLit _ => false

def exprListRefsDisallowedCap : List PyExpr → Bool
  | [] => false
  | e :: rest => exprRefsDisallowedCap e || exprListRefsDisallowedCap rest
end

def stmtRefsDisallowedCap : PyStmt → Bool
  | .assign _ e => exprRefsDisallowedCap e
  | .exprStmt e => exprRefsDisallowedCap e
  | .pyImport m => processSpawnModules.contains m

def progRefsDisallowedCap (prog : List PyStmt) : Bool :=
  prog.any stmtRefsDisallowedCap

/-- An expression contains, outside the user-assigned names `bound`, a
reference to a disallowed capability name (the amended, name-based reading
of claim C1: attribute access is excluded, shadowed names are excluded). -/
inductive UnboundDisallowedRef : List String → PyExpr → Prop where
  | nameRef {bound : List String} {n : String} :
      n ∈ disallowedCapabilityNames → n ∉ bound →
      UnboundDisallowedRef bound (.name n)
  | attrRef {bound : List String} {e : PyExpr} (a : String) :
      UnboundDisallowedRef bound e → UnboundDisallowedRef bound (.attr e a)
  | callFun {bound : List String} {f : PyExpr} (args : List PyExpr) :
      UnboundDisallowedRef bound f → UnboundDisallowedRef bound (.call f args)
  | callArg {bound : List String} (f : PyExpr) {args : List PyExpr} {e : PyExpr} :
      e ∈ args → UnboundDisallowedRef bound e → UnboundDisallowedRef bound (.call f args)
  | listElem {bound : List String} {xs : List PyExpr} {e : PyExpr} :
      e ∈ xs → UnboundDisallowedRef bound e → UnboundDisallowedRef bound (.listLit xs)
  | addL {bound : List String} {a : PyExpr} (b : PyExpr) :
      UnboundDisallowedRef bound a → UnboundDisallowedRef bound (.binAdd a b)
  | addR {bound : List String} (a : PyExpr) {b : PyExpr} :
      UnboundDisallowedRef bound b → UnboundDisallowedRef bound (.binAdd a b)
  | mulL {bound : List String} {a : PyExpr} (b : PyExpr) :
      UnboundDisallowedRef bound a → UnboundDisallowedRef bound (.binMul a b)
  | mulR {bound : List String} (a : PyExpr) {b : PyExpr} :
      UnboundDisallowedRef bound b → UnboundDisallowedRef bound (.binMul a b)

/-- A straight-line program references, at some statement, a disallowed
capability name that no earlier assignment has shadowed, or imports a
process-spawning module. -/
inductive ProgUnboundDisallowed : List String → List PyStmt → Prop where
  | hereAssign {bound : List String} (x : String) {e : PyExpr} (rest : List PyStmt) :
      UnboundDisallowedRef bound e → ProgUnboundDisallowed bound (.assign x e :: rest)
  | laterAssign {bound : List String} (x : String) (e : PyExpr) {rest : List PyStmt} :
      ProgUnboundDisallowed (x :: bound) rest →
      ProgUnboundDisallowed bound (.assign x e :: rest)
  | hereExpr {bound : List String} {e : PyExpr} (rest : List PyStmt) :
      UnboundDisallowedRef bound e → ProgUnboundDisallowed bound (.exprStmt e :: rest)
  | laterExpr {bound : List String} (e : PyExpr) {rest : List PyStmt} :
      ProgUnboundDisallowed bound rest → ProgUnboundDisallowed bound (.exprStmt e :: rest)
  | hereImport {bound : List String} {m : String} (rest : List PyStmt) :
      m ∈ processSpawnModules → ProgUnboundDisallowed bound (.pyImport m :: rest)
  | laterImport {bound : List String} (m : String) {rest : List PyStmt} :
      ProgUnboundDisallowed bound rest → ProgUnboundDisallowed bound (.pyImport m :: rest)

def EvalRes.isErr : EvalRes → Bool
  | .err _ _ => true
  | .ok _ _ => false

def ArgsRes.isErr : ArgsRes → Bool
  | .errArgs _ _ => true
  | .okArgs _ _ => false

def InterpOutcome.isFailure : InterpOutcome → Bool
  | .done _ _ => false
  | .fault _ _ => true
  | .timedOut _ => true

theorem builtins_no_disallowed :
    ∀ n ∈ disallowedCapabilityNames, nsLookup create_safe_builtins n = Option.none := by
  intro n hn
  fin_cases hn <;> rfl

theorem globals_no_disallowed :
    ∀ n ∈ disallowedCapabilityNames,
      nsLookup (nsSet "print" (.builtin "print") (create_safe_globals [])) n = Option.none := by
  intro n hn
  fin_cases hn <;> rfl

theorem nsLookup_nsSet (ns : PyNs) (k : String) (v : PyVal) (n : String) :
    nsLookup (nsSet k v ns) n = if k = n then some v else nsLookup ns n := by
  induction ns with
  | nil => simp [nsSet, nsLookup]
  | cons kv rest ih =>
    obtain ⟨k2, v2⟩ := kv
    by_cases h : k2 = k
    · subst h
      by_cases h2 : k2 = n <;> simp [nsSet, nsLookup, h2]
    · by_cases h2 : k2 = n
      · subst h2
        have hne : ¬ k = k2 := fun hh => h hh.symm
        simp [nsSet, nsLookup, h, hne]
      · simp [nsSet, nsLookup, h, h2, ih]

theorem evalExpr_isErr_of_unbound {bound : List String} {e : PyExpr}
    (href : UnboundDisallowedRef bound e) :
    ∀ (ns : PyNs) (out : List String),
      (∀ n ∈ disallowedCapabilityNames, n ∉ bound → nsLookup ns n = Option.none) →
      (evalExpr ns out e).isErr = true := by
  induction href with
  | @nameRef n hmem hnb =>
    intro ns out hinv
    simp [evalExpr, hinv n hmem hnb, builtins_no_disallowed n hmem, EvalRes.isErr]
  | @attrRef e2 a hsub ih =>
    intro ns out hinv
    cases heq : evalExpr ns out e2 with
    | ok v out2 =>
      have := ih ns out hinv
      rw [heq] at this
      simp [EvalRes.isErr] at this
    | err m out2 => simp [evalExpr, heq, EvalRes.isErr]
  | @callFun f args hsub ih =>
    intro ns out hinv
    cases heq : evalExpr ns out f with
    | ok v out2 =>
      have := ih ns out hinv
      rw [heq] at this
      simp [EvalRes.isErr] at this
    | err m out2 => simp [evalExpr, heq, EvalRes.isErr]
  | @callArg f args e2 hargmem hsub ih =>
    intro ns out hinv
    cases heq : evalExpr ns out f with
    | err m out2 => simp [evalExpr, heq, EvalRes.isErr]
    | ok fv out2 =>
      have hargs :
          ∀ (es : List PyExpr), e2 ∈ es → ∀ (o : List String),
            (evalArgs ns o es).isErr = true := by
        intro es
        induction es with
        | nil => intro hmem; exact absurd hmem (List.not_mem_nil e2)
        | cons a rest ihes =>
          intro hmem o
          rcases List.mem_cons.mp hmem with hcase | hcase
          · subst hcase
            cases heq2 : evalExpr ns o e2 with
            | ok v o2 =>
              have := ih ns o hinv
              rw [heq2] at this
              simp [EvalRes.isErr] at this
            | err m o2 => simp [evalArgs, heq2, ArgsRes.isErr]
          · cases heq2 : evalExpr ns o a with
            | err m o2 => simp [evalArgs, heq2, ArgsRes.isErr]
            | ok v o2 =>
              have hrest := ihes hcase o2
              cases heq3 : evalArgs ns o2 rest with
              | okArgs vs o3 =>
                rw [heq3] at hrest
                simp [ArgsRes.isErr] at hrest
              | errArgs m o3 => simp [evalArgs, heq2, heq3, ArgsRes.isErr]
      cases heq3 : evalArgs ns out2 args with
      | okArgs vs o3 =>
        have := hargs args hargmem out2
        rw [heq3] at this
        simp [ArgsRes.isErr] at this
      | errArgs m o3 => simp [evalExpr, heq, heq3, EvalRes.isErr]
  | @listElem xs e2 hargmem hsub ih =>
    intro ns out hinv
    have hargs :
        ∀ (es : List PyExpr), e2 ∈ es → ∀ (o : List String),
          (evalArgs ns o es).isErr = true := by
      intro es
      induction es with
      | nil => intro hmem; exact absurd hmem (List.not_mem_nil e2)
      | cons a rest ihes =>
        intro hmem o
        rcases List.mem_cons.mp hmem with hcase | hcase
        · subst hcase
          cases heq2 : evalExpr ns o e2 with
          | ok v o2 =>
            have := ih ns o hinv
            rw [heq2] at this
            simp [EvalRes.isErr] at this
          | err m o2 => simp [evalArgs, heq2, ArgsRes.isErr]
        · cases heq2 : evalExpr ns o a with
          | err m o2 => simp [evalArgs, heq2, ArgsRes.isErr]
          | ok v o2 =>
            have hrest := ihes hcase o2
            cases heq3 : evalArgs ns o2 rest with
            | okArgs vs o3 =>
              rw [heq3] at hrest
              simp [ArgsRes.isErr] at hrest
            | errArgs m o3 => simp [evalArgs, heq2, heq3, ArgsRes.isErr]
    cases heq3 : evalArgs ns out xs with
    | okArgs vs o3 =>
      have := hargs xs hargmem out
      rw [heq3] at this
      simp [ArgsRes.isErr] at this
    | errArgs m o3 => simp [evalExpr, heq3, EvalRes.isErr]
  | @addL a b hsub ih =>
    intro ns out hinv
    cases heq : evalExpr ns out a with
    | ok v out2 =>
      have := ih ns out hinv
      rw [heq] at this
      simp [EvalRes.isErr] at this
    | err m out2 => simp [evalExpr, heq, EvalRes.isErr]
  | @addR a b hsub ih =>
    intro ns out hinv
    cases heq : evalExpr ns out a with
    | err m out2 => simp [evalExpr, heq, EvalRes.isErr]
    | ok v out2 =>
      cases heq2 : evalExpr ns out2 b with
      | ok v2 out3 =>
        have := ih ns out2 hinv
        rw [heq2] at this
        simp [EvalRes.isErr] at this
      | err m out3 => simp [evalExpr, heq, heq2, EvalRes.isErr]
  | @mulL a b hsub ih =>
    intro ns out hinv
    cases heq : evalExpr ns out a with
    | ok v out2 =>
      have := ih ns out hinv
      rw [heq] at this
      simp [EvalRes.isErr] at this
    | err m out2 => simp [evalExpr, heq, EvalRes.isErr]
  | @mulR a b hsub ih =>
    intro ns out hinv
    cases heq : evalExpr ns out a with
    | err m out2 => simp [evalExpr, heq, EvalRes.isErr]
    | ok v out2 =>
      cases heq2 : evalExpr ns out2 b with
      | ok v2 out3 =>
        have := ih ns out2 hinv
        rw [heq2] at this
        simp [EvalRes.isErr] at this
      | err m out3 => simp [evalExpr, heq, heq2, EvalRes.isErr]

theorem interp_isFailure_of_progRefs {bound : List String} {prog : List PyStmt}
    (href : ProgUnboundDisallowed bound prog) :
    ∀ (ns : PyNs) (out : List String) (fuel : Nat),
      (∀ n ∈ disallowedCapabilityNames, n ∉ bound → nsLookup ns n = Option.none) →
      (interpStmts prog ns out fuel).isFailure = true := by
  induction href with
  | @hereAssign bound2 x e rest hexp =>
    intro ns out fuel hinv
    cases fuel with
    | zero => simp [interpStmts, InterpOutcome.isFailure]
    | succ fuel2 =>
      cases heq : evalExpr ns out e with
      | ok v out2 =>
        have := evalExpr_isErr_of_unbound hexp ns out hinv
        rw [heq] at this
        simp [EvalRes.isErr] at this
      | err m out2 => simp [interpStmts, heq, InterpOutcome.isFailure]
  | @laterAssign bound2 x e rest hrest ih =>
    intro ns out fuel hinv
    cases fuel with
    | zero => simp [interpStmts, InterpOutcome.isFailure]
    | succ fuel2 =>
      cases heq : evalExpr ns out e with
      | err m out2 => simp [interpStmts, heq, InterpOutcome.isFailure]
      | ok v out2 =>
        have hinv2 :
            ∀ n ∈ disallowedCapabilityNames, n ∉ x :: bound2 →
              nsLookup (nsSet x v ns) n = Option.none := by
          intro n hn hnb
          have hne : ¬ x = n := fun hh => hnb (hh ▸ List.mem_cons_self x bound2)
          have hnb2 : n ∉ bound2 := fun hh => hnb (List.mem_cons_of_mem x hh)
          rw [nsLookup_nsSet, if_neg hne]
          exact hinv n hn hnb2
        have := ih (nsSet x v ns) out2 fuel2 hinv2
        simp [interpStmts, heq, this]
  | @hereExpr bound2 e rest hexp =>
    intro ns out fuel hinv
    cases fuel with
    | zero => simp [interpStmts, InterpOutcome.isFailure]
    | succ fuel2 =>
      cases heq : evalExpr ns out e with
      | ok v out2 =>
        have := evalExpr_isErr_of_unbound hexp ns out hinv
        rw [heq] at this
        simp [EvalRes.isErr] at this
      | err m out2 => simp [interpStmts, heq, InterpOutcome.isFailure]
  | @laterExpr bound2 e rest hrest ih =>
    intro ns out fuel hinv
    cases fuel with
    | zero => simp [interpStmts, InterpOutcome.isFailure]
    | succ fuel2 =>
      cases heq : evalExpr ns out e with
      | err m out2 => simp [interpStmts, heq, InterpOutcome.isFailure]
      | ok v out2 =>
        have := ih ns out2 fuel2 hinv
        simp [interpStmts, heq, this]
  | @hereImport bound2 m rest hm =>
    intro ns out fuel hinv
    cases fuel with
    | zero => simp [interpStmts, InterpOutcome.isFailure]
    | succ fuel2 => simp [interpStmts, InterpOutcome.isFailure]
  | @laterImport bound2 m rest hrest ih =>
    intro ns out fuel hinv
    cases fuel with
    | zero => simp [interpStmts, InterpOutcome.isFailure]
    | succ fuel2 => simp [interpStmts, InterpOutcome.isFailure]

/-- Claim C1, as stated, is false on the code: the program
`result = "".__class__` references a disallowed capability (reflective
class access) yet `execute_code` returns `success=true` with the class
object as the result.  Restricting `__builtins__` removes dangerous NAMES
from lookup, but attribute access never consults `__builtins__`. -/
theorem claim_C1_counterexample :
    progRefsDisallowedCap [.assign "result" (.attr (.strLit "") "__class__")] = true ∧
    (execute_code [.assign "result" (.attr (.strLit "") "__class__")] [] 30).success = true ∧
    (execute_code [.assign "result" (.attr (.strLit "") "__class__")] [] 30).result =
      some (.pytype "str") :=
  ⟨rfl, rfl, rfl⟩

/-- Claim C1 (amended): for every submitted straight-line code text that
references a disallowed capability by an unshadowed NAME — raw file open
(`open`), dynamic code compilation (`eval`, `exec`, `compile`),
interactive input (`input`), reflective import or globals access
(`__import__`, `globals`) — or that imports a process-spawning module,
`execute_code` (run with no extra context variables) returns
`success=false`.  Reflective ATTRIBUTE access (`__class__`, `__bases__`,
`__subclasses__`, `__globals__`) is not blocked and can succeed. -/
theorem claim_C1_theorem (prog : List PyStmt) (t : Nat)
    (h : ProgUnboundDisallowed [] prog) :
    (execute_code prog [] t).success = false := by
  have hfail :=
    interp_isFailure_of_progRefs h
      (nsSet "print" (.builtin "print") (create_safe_globals [])) [] t
      (fun n hn _ => globals_no_disallowed n hn)
  unfold execute_code executeCodeFull withSafeExecutionContext
  cases heq :
      interpStmts prog (nsSet "print" (.builtin "print") (create_safe_globals [])) [] t with
  | done ns out =>
    rw [heq] at hfail
    simp [InterpOutcome.isFailure] at hfail
  | fault msg out => simp [heq]
  | timedOut out => simp [heq]

/-- Witness for claim C1's amended theorem: `f = open("/etc/passwd")`
fails (`NameError` on `open`), as does `import subprocess`. -/
theorem claim_C1_witness :
    (execute_code [.assign "f" (.call (.name "open") [.strLit "/etc/passwd"])] [] 30).success
        = false ∧
    (execute_code [.pyImport "subprocess"] [] 30).success = false :=
  ⟨ claim_C1_theorem _ 30
      (.hereAssign "f" []
        (.callFun [.strLit "/etc/passwd"]
          (.nameRef (by simp [disallowedCapabilityNames]) (List.not_mem_nil "open")))),
   claim_C1_theorem _ 30 (.hereImport [] (by simp [processSpawnModules]))⟩

/-- Claim C4: for every code text that uses only allowlisted capabilities
and finishes within its time and memory budget — i.e. whose interpretation
in the safe namespace completes without fault or timeout — `execute_code`
returns `success=true`, a `result` field equal to the value bound to the
name `result` in the namespace (absent when that name was never bound,
both serializing to JSON `null`), and an `output` sequence equal to the
lines emitted by `print` calls in emission order. -/
theorem claim_C4_theorem (prog : List PyStmt) (ctx : PyNs) (t : Nat)
    (ns : PyNs) (out : List String)
    (h : interpStmts prog (nsSet "print" (.builtin "print") (create_safe_globals ctx)) [] t =
          .done ns out) :
    execute_code prog ctx t =
      { success := true, result := nsLookup ns "result", output := out,
        error := Option.none, traceback := Option.none } := by
  simp [execute_code, executeCodeFull, withSafeExecutionContext, h]

/-- Witness for claim C4: the spec's example
`run_code("result = sum([1,2,3,4,5]) * 2")` yields `success=true` and
`result=30` with no output, and a two-`print` program captures both lines
in order with the bound `result`. -/
theorem claim_C4_witness :
    execute_code
        [.assign "result" (.binMul (.call (.name "sum")
          [.listLit [.intLit 1, .intLit 2, .intLit 3, .intLit 4, .intLit 5]]) (.intLit 2))]
        [] 30 =
      { success := true, result := some (.int 30), output := [],
        error := Option.none, traceback := Option.none } ∧
    execute_code
        [.exprStmt (.call (.name "print") [.strLit "Hello, World!"]),
         .exprStmt (.call (.name "print") [.strLit "Testing output capture"]),
         .assign "result" (.intLit 42)]
        [] 30 =
      { success := true, result := some (.int 42),
        output := ["Hello, World!", "Testing output capture"],
        error := Option.none, traceback := Option.none } :=
  ⟨ claim_C4_theorem _ [] 30
      (nsSet "result" (.int 30) (nsSet "print" (.builtin "print") (create_safe_globals [])))
      [] (by rfl),
   claim_C4_theorem _ [] 30
      (nsSet "result" (.int 42) (nsSet "print" (.builtin "print") (create_safe_globals [])))
      ["Hello, World!", "Testing output capture"] (by rfl)⟩

/-- Claim C5: every failing execution is packaged as the source's two
`except` branches do it — a timeout yields `success=false` with a
Timeout-kind error naming the configured limit and no traceback, any
other interpretation fault yields `success=false` with the fault's
message and a diagnostic trace — and in both cases the response carries
exactly the output lines captured before the failure. -/
theorem claim_C5_theorem (prog : List PyStmt) (ctx : PyNs) (t : Nat)
    (out : List String) (msg : String) :
    (interpStmts prog (nsSet "print" (.builtin "print") (create_safe_globals ctx)) [] t =
        .timedOut out →
      execute_code prog ctx t =
        { success := false, result := Option.none, output := out,
          error := some ("Execution timed out after " ++ toString t ++ " seconds"),
          traceback := Option.none }) ∧
    (interpStmts prog (nsSet "print" (.builtin "print") (create_safe_globals ctx)) [] t =
        .fault msg out →
      execute_code prog ctx t =
        { success := false, result := Option.none, output := out,
          error := some msg, traceback := some (formatTraceback msg) }) := by
  constructor
  · intro h
    simp [execute_code, executeCodeFull, withSafeExecutionContext, h]
  · intro h
    simp [execute_code, executeCodeFull, withSafeExecutionContext, h]

/-- Witness for claim C5: a three-statement program under a budget of 2
times out with the limit named in the error and the earlier `print` line
preserved, and a `NameError` fault reports its message, a trace, and the
output captured before it. -/
theorem claim_C5_witness :
    execute_code
        [.exprStmt (.call (.name "print") [.strLit "before"]),
         .assign "x" (.intLit 1), .assign "y" (.intLit 2)]
        [] 2 =
      { success := false, result := Option.none, output := ["before"],
        error := some "Execution timed out after 2 seconds",
        traceback := Option.none } ∧
    execute_code
        [.exprStmt (.call (.name "print") [.strLit "step"]),
         .assign "z" (.name "missing")]
        [] 30 =
      { success := false, result := Option.none, output := ["step"],
        error := some "NameError: name missing is not defined",
        traceback := some (formatTraceback "NameError: name missing is not defined") } :=
  ⟨( claim_C5_theorem _ [] 2 ["before"] "").1 (by rfl),
   ( claim_C5_theorem _ [] 30 ["step"] "NameError: name missing is not defined").2 (by rfl)⟩

/-- Claim C6: the supervisor's `SafeExecutionContext` installs the
SIGALRM wall-clock deadline before interpretation begins and clears it
(`signal.alarm(0)`) on every exit path — normal completion, fault and
timeout alike — so for every request the alarm event trace is exactly
install-then-clear and no alarm survives the request. -/
theorem claim_C6_theorem (prog : List PyStmt) (ctx : PyNs) (t : Nat) :
    (executeCodeFull prog ctx t).2 = [AlarmEvent.set t, AlarmEvent.clear] := by
  cases heq : interpStmts prog (nsSet "print" (.builtin "print") (create_safe_globals ctx)) [] t <;>
    simp [executeCodeFull, withSafeExecutionContext, heq]

def c2workspace : PathC := ["a", "ws"]

def c2fs : WorkspaceFS :=
  { files := [(["a", "ws2", "secret"], "s")],
    dirs := [[], ["a"], ["a", "ws"], ["a", "ws2"]] }

/-- Claim C2 fails on the code (code bug): with workspace root `/a/ws`,
the relative path `../ws2/secret` canonicalizes to `/a/ws2/secret` —
OUTSIDE the root — yet the confinement test
`str(path).startswith(str(workspace))` accepts it because `/a/ws` is a
string prefix of `/a/ws2/secret`, and `_safe_read_file` happily reads the
sibling directory's file instead of raising `PermissionError`.  (All four
operations share the identical check text, lines 170, 180, 190 and 200.) -/
theorem claim_C2_theorem :
    joinResolve c2workspace "../ws2/secret" = ["a", "ws2", "secret"] ∧
    isRootOrDescendant c2workspace (joinResolve c2workspace "../ws2/secret") = false ∧
    workspacePrefixCheck c2workspace (joinResolve c2workspace "../ws2/secret") = true ∧
    _safe_read_file c2workspace c2fs "../ws2/secret" = .ok "s" :=
  ⟨rfl, rfl, rfl, rfl⟩

def c3text : String := "a@b.co [EMAIL_b33a54a5]"

/-- Claim C3 fails on the code (code bug): for an input that already
contains the token id a detected email maps to
(`b33a54a5` is `md5("a@b.co").hexdigest()[:8]`), the pre-existing literal
token text in the sanitized output is indistinguishable from the
substituted one, and `detokenize_pii` rewrites both, so the round trip
returns `"a@b.co a@b.co"` instead of the original text. -/
theorem claim_C3_theorem :
    (tokenize_pii c3text).1 = "[EMAIL_b33a54a5] [EMAIL_b33a54a5]" ∧
    (tokenize_pii c3text).2 = [("[EMAIL_b33a54a5]", "a@b.co")] ∧
    detokenize_pii (tokenize_pii c3text).1 (tokenize_pii c3text).2 = "a@b.co a@b.co" ∧
    detokenize_pii (tokenize_pii c3text).1 (tokenize_pii c3text).2 ≠ c3text :=
  ⟨rfl, rfl, rfl, by decide⟩

def c7emptySkills : SkillsFS := { codeFiles := [], metaFiles := [] }

/-- Claim C7 fails on the code (code bug): the name `"abc\n"` does NOT
match the identifier pattern `^[A-Za-z_][A-Za-z0-9_]*$` read as a
full-string constraint, yet `save_skill` accepts it — Python's `$` also
matches just before a trailing newline — and creates both artifacts
(named `"abc\n.py"` / `"abc\n.json"`) instead of failing with the
ValidationError.  (For names without a trailing newline the check agrees
with the pattern, e.g. `"bad-name"` is rejected with the
identifier-constraint error and nothing is written.) -/
theorem claim_C7_theorem :
    identPatternFull "abc\n" = false ∧
    (save_skill "abc\n" "x=1" "" "2026-01-01T00:00:00" c7emptySkills).1 =
      .successJson "Skill \x27abc\n\x27 saved successfully" ∧
    assocLookup (save_skill "abc\n" "x=1" "" "2026-01-01T00:00:00" c7emptySkills).2.codeFiles
      "abc\n.py" = some "x=1" ∧
    (assocLookup (save_skill "abc\n" "x=1" "" "2026-01-01T00:00:00" c7emptySkills).2.metaFiles
      "abc\n.json").isSome = true ∧
    (save_skill "bad-name" "x=1" "" "2026-01-01T00:00:00" c7emptySkills).1 =
      .errorJson "Invalid skill name. Use alphanumeric and underscores only." ∧
    (save_skill "bad-name" "x=1" "" "2026-01-01T00:00:00" c7emptySkills).2.codeFiles = [] :=
  ⟨rfl, rfl, rfl, rfl, rfl, rfl⟩

/-- Claim C10: whenever the confinement check passes but the resolved
target is not an existing directory (a nonexistent path or a regular
file), `_safe_list_files` returns the empty list rather than raising,
while `_safe_read_file` and `_safe_delete_file` raise `FileNotFoundError`
on an absent target. -/
theorem claim_C10_theorem (ws : PathC) (fs : WorkspaceFS) (subpath filename : String) :
    (workspacePrefixCheck ws (joinResolve ws subpath) = true →
      fs.isDir (joinResolve ws subpath) = false →
      _safe_list_files ws fs subpath = .ok []) ∧
    (workspacePrefixCheck ws (joinResolve ws filename) = true →
      fs.pathExists (joinResolve ws filename) = false →
      _safe_read_file ws fs filename =
          .error (.fileNotFoundError ("File not found: " ++ filename)) ∧
        _safe_delete_file ws fs filename =
          .error (.fileNotFoundError ("File not found: " ++ filename))) := by
  constructor
  · intro hok hdir
    simp [_safe_list_files, hok, hdir]
  · intro hok hex
    constructor
    · simp [_safe_read_file, hok, hex]
    · simp [_safe_delete_file, hok, hex]

def c10fs : WorkspaceFS :=
  { files := [(["a", "ws", "plain.txt"], "data")], dirs := [["a"], ["a", "ws"]] }

/-- Witness for claim C10: in a workspace holding one regular file,
listing a nonexistent subpath and listing a regular file both return the
empty list, while reading and deleting the nonexistent path raise
`FileNotFoundError`. -/
theorem claim_C10_witness :
    _safe_list_files ["a", "ws"] c10fs "missing" = .ok [] ∧
    _safe_list_files ["a", "ws"] c10fs "plain.txt" = .ok [] ∧
    _safe_read_file ["a", "ws"] c10fs "missing" =
      .error (.fileNotFoundError "File not found: missing") ∧
    _safe_delete_file ["a", "ws"] c10fs "missing" =
      .error (.fileNotFoundError "File not found: missing") :=
  ⟨( claim_C10_theorem ["a", "ws"] c10fs "missing" "missing").1 (by rfl) (by rfl),
   ( claim_C10_theorem ["a", "ws"] c10fs "plain.txt" "missing").1 (by rfl) (by rfl),
   (( claim_C10_theorem ["a", "ws"] c10fs "missing" "missing").2 (by rfl) (by rfl)).1,
   (( claim_C10_theorem ["a", "ws"] c10fs "missing" "missing").2 (by rfl) (by rfl)).2⟩

theorem dictSet_mem_self (l : List (String × String)) (k v : String) :
    ∃ w, (k, w) ∈ dictSet k v l := by
  induction l with
  | nil => exact ⟨v, by simp [dictSet]⟩
  | cons kv rest ih =>
    obtain ⟨k2, v2⟩ := kv
    by_cases h : k2 = k
    · subst h
      exact ⟨v, by simp [dictSet]⟩
    · obtain ⟨w, hw⟩ := ih
      exact ⟨w, by simp [dictSet, h]; exact Or.inr hw⟩

theorem dictSet_mem_keep (l : List (String × String)) (k v k0 w0 : String)
    (h : (k0, w0) ∈ l) : ∃ w, (k0, w) ∈ dictSet k v l := by
  induction l with
  | nil => cases h
  | cons kv rest ih =>
    obtain ⟨k2, v2⟩ := kv
    rcases List.mem_cons.mp h with hh | hh
    · injection hh with h1 h2
      subst h1
      subst h2
      by_cases hk : k0 = k
      · subst hk
        exact ⟨v, by simp [dictSet]⟩
      · exact ⟨w0, by simp [dictSet, hk]⟩
    · by_cases hk : k2 = k
      · subst hk
        exact ⟨w0, by simp [dictSet]; exact Or.inr hh⟩
      · obtain ⟨w, hw⟩ := ih hh
        exact ⟨w, by simp [dictSet, hk]; exact Or.inr hw⟩

theorem dictUpdate_mem_keep : ∀ (m store : List (String × String)) (k0 w0 : String),
    (k0, w0) ∈ store → ∃ w, (k0, w) ∈ dictUpdate store m := by
  intro m
  induction m with
  | nil => intro store k0 w0 h; exact ⟨w0, h⟩
  | cons kv rest ih =>
    intro store k0 w0 h
    obtain ⟨k2, v2⟩ := kv
    obtain ⟨w, hw⟩ := dictSet_mem_keep store k2 v2 k0 w0 h
    exact ih (dictSet k2 v2 store) k0 w hw

theorem dictUpdate_mem_intro : ∀ (m store : List (String × String)) (k0 w0 : String),
    (k0, w0) ∈ m → ∃ w, (k0, w) ∈ dictUpdate store m := by
  intro m
  induction m with
  | nil => intro store k0 w0 h; cases h
  | cons kv rest ih =>
    intro store k0 w0 h
    obtain ⟨k2, v2⟩ := kv
    rcases List.mem_cons.mp h with hh | hh
    · injection hh with h1 h2
      subst h1
      obtain ⟨w, hw⟩ := dictSet_mem_self store k0 v2
      exact dictUpdate_mem_keep rest (dictSet k0 v2 store) k0 w hw
    · exact ih (dictSet k2 v2 store) k0 w0 hh

theorem storeFold_mem_keep : ∀ (texts : List String) (store : List (String × String))
    (k0 w0 : String), (k0, w0) ∈ store →
    ∃ w, (k0, w) ∈ texts.foldl (fun st t2 => dictUpdate st (tokenize_pii t2).2) store := by
  intro texts
  induction texts with
  | nil => intro store k0 w0 h; exact ⟨w0, h⟩
  | cons t1 rest ih =>
    intro store k0 w0 h
    obtain ⟨w, hw⟩ := dictUpdate_mem_keep (tokenize_pii t1).2 store k0 w0 h
    simp only [List.foldl_cons]
    exact ih (dictUpdate store (tokenize_pii t1).2) k0 w hw

theorem storeFold_mem_of_call : ∀ (texts : List String) (store : List (String × String))
    (t tok orig : String), t ∈ texts → (tok, orig) ∈ (tokenize_pii t).2 →
    ∃ w, (tok, w) ∈ texts.foldl (fun st t2 => dictUpdate st (tokenize_pii t2).2) store := by
  intro texts
  induction texts with
  | nil => intro _ _ _ _ h; cases h
  | cons t1 rest ih =>
    intro store t tok orig hmem hpair
    rcases List.mem_cons.mp hmem with hh | hh
    · subst hh
      obtain ⟨w, hw⟩ := dictUpdate_mem_intro (tokenize_pii t).2 store tok orig hpair
      simp only [List.foldl_cons]
      exact storeFold_mem_keep rest (dictUpdate store (tokenize_pii t).2) tok w hw
    · simp only [List.foldl_cons]
      exact ih (dictUpdate store (tokenize_pii t1).2) t tok orig hh hpair

set_option maxHeartbeats 4000000 in
/-- Claim C8, as stated, is false on the code: the two distinct emails
`aaaaaa0w@x.co` and `aaaaasfh@x.co` share the 8-hex-digit MD5 prefix
`174a5067`, hence map to the SAME token id; tokenizing the first and then
the second makes `_pii_tokens.update` overwrite the first token→original
pair, which therefore does not remain present in the store. -/
theorem claim_C8_counterexample :
    ("[EMAIL_174a5067]", "aaaaaa0w@x.co") ∈ (tokenize_pii "aaaaaa0w@x.co").2 ∧
    ("[EMAIL_174a5067]", "aaaaaa0w@x.co") ∉
      pii_store_after ["aaaaaa0w@x.co", "aaaaasfh@x.co"] := by
  have h1 : (tokenize_pii "aaaaaa0w@x.co").2 = [("[EMAIL_174a5067]", "aaaaaa0w@x.co")] := by
    rfl
  have h2 : pii_store_after ["aaaaaa0w@x.co", "aaaaasfh@x.co"] =
      [("[EMAIL_174a5067]", "aaaaasfh@x.co")] := by
    rfl
  constructor
  · rw [h1]
    exact List.mem_cons_self _ _
  · rw [h2]
    intro hmem
    have heq := List.mem_singleton.mp hmem
    have hsnd := congrArg Prod.snd heq
    simp at hsnd

/-- Claim C8 (amended): the process-wide token store is key-append-only
and never pruned — every token ever produced by any `tokenize_pii` call
remains present as a key of the store for the process lifetime (so
`detokenize_pii` with the map omitted substitutes every token ever
produced), resolving to the original recorded by the latest call; when
two distinct originals of one category collide on the 8-hex MD5 digest
prefix, the earlier token→original PAIR is overwritten, not kept. -/
theorem claim_C8_theorem (texts : List String) (t tok orig : String)
    (hmem : t ∈ texts) (hpair : (tok, orig) ∈ (tokenize_pii t).2) :
    ∃ w, (tok, w) ∈ pii_store_after texts := by
  unfold pii_store_after
  exact storeFold_mem_of_call texts [] t tok orig hmem hpair

set_option maxHeartbeats 4000000 in
/-- Witness for claim C8's amended theorem: the token produced for
`aaaaaa0w@x.co` is a key of the store after that call. -/
theorem claim_C8_witness :
    ∃ w, ("[EMAIL_174a5067]", w) ∈ pii_store_after ["aaaaaa0w@x.co"] := by
  have h1 : (tokenize_pii "aaaaaa0w@x.co").2 = [("[EMAIL_174a5067]", "aaaaaa0w@x.co")] := by
    rfl
  refine claim_C8_theorem ["aaaaaa0w@x.co"] "aaaaaa0w@x.co" "[EMAIL_174a5067]"
    "aaaaaa0w@x.co" (List.mem_cons_self _ _) ?_
  rw [h1]
  exact List.mem_cons_self _ _

theorem scanImportWarningsLength (code : String) (l : List String) :
    (l.foldr (fun m acc =>
        List.replicate (blockedModuleOccurrences code.data m)
          ("Blocked import detected: " ++ m) ++ acc) []).length =
      (l.map (blockedModuleOccurrences code.data)).sum := by
  induction l with
  | nil => rfl
  | cons m rest ih => simp [ih]

theorem scanAttrWarningsLength (code : String) (l : List String) :
    (l.foldr (fun a acc =>
        List.replicate (countOcc a.data code.data)
          ("Dangerous attribute access: " ++ a) ++ acc) []).length =
      (l.map (fun a => countOcc a.data code.data)).sum := by
  induction l with
  | nil => rfl
  | cons m rest ih => simp [ih]

/-- Claim C9: the scan operation `check_for_dangerous_code` — modelled
from the spec, since the repository tests import it but the shipped
`server.py` lacks it — returns, for every submitted code text, an ordered
warning list with exactly one warning per occurrence of a deny-listed
module name in an import-like statement and per occurrence of a
deny-listed reflective attribute substring.  It never blocks execution:
it is a pure function that `execute_code` (see `executeCodeFull`) takes
no input from. -/
theorem claim_C9_theorem (code : String) :
    (check_for_dangerous_code code).length = totalDangerMatches code := by
  unfold check_for_dangerous_code totalDangerMatches
  rw [List.length_append, scanImportWarningsLength, scanAttrWarningsLength]
